import Mathlib

/-!
Verification development for the Smart-Kiosk water-vending firmware
(`Testingg/WaterArduino.cpp` and `Testingg/arduinocode.cpp`).

Modelling conventions:
* C `float`/`double` values are modelled as exact rationals (`ℚ`); the
  claims under study concern rounding direction, clamping and int
  conversion, which the exact model decides the same way as the binary
  floats at the concrete inputs used.
* `unsigned long` (32-bit) subtraction `a - b` is modelled by `u32sub`
  (wraparound subtraction mod 2^32); `int` is modelled as `ℤ`.
* `millis()` is passed in explicitly as a `now : ℕ` argument; within one
  modelled call all reads of `millis()` return that value.
* Serial output is modelled as a list of `Event`s.  Purely diagnostic
  throttled prints (the `[CUP_DEBUG]`/`[DEBUG]` progress dumps) are not
  modelled, with one exception: the `[DEBUG] Rejected invalid coin
  pattern` line of `handleCoin`, which is the firmware's only
  reject/unknown notification, appears as `Event.coinRejected`.
* The C++ cast `(unsigned long)x` / `int = float` truncates toward zero;
  the values cast in this firmware are nonnegative, so truncation equals
  the floor.
-/

/-- Serial protocol lines emitted by the firmware, one constructor per
distinct message kind. -/
inductive Event where
  | cupDetected
  | cupRemovedGrace
  | cupRemovedStop
  | cupReplaced
  | autoStart
  | dispenseStart
  | dispenseTarget (ml : Int)
  | dispenseDone (ml : ℚ)
  | creditLeft (ml : ℚ)
  | manualStart
  | manualStop
  | errorCannotStart
  | addedCredit (ml : Int)
  | modeWater
  | modeCharge
  | statusReport
  | systemReset
  | calDone (c1 c5 c10 : Int)
  | flowCalSaved (ppl : ℚ)
  | coinInserted (peso : Int)
  | coinWater (ml : Int)
  | coinCharge (peso : Int)
  | coinRejected (pulses : Int)
  deriving Repr, DecidableEq

/-- Host commands recognized by `handleSerialCommand` (WaterArduino.cpp
lines 310-349); `other` stands for any unrecognized line. -/
inductive Cmd where
  | cal
  | flowcal
  | reset
  | modeWaterCmd
  | modeChargeCmd
  | start
  | stop
  | add100
  | add500
  | status
  | other
  deriving Repr, DecidableEq

/-- Wraparound subtraction of 32-bit unsigned counters: the C expression
`a - b` on `unsigned long`.  For `b ≤ a < 2^32` it equals `a - b`. -/
def u32sub (a b : Nat) : Nat :=
  (a + (2 ^ 32 - b % 2 ^ 32)) % 2 ^ 32

/-- The C++ conversion of a nonnegative floating value to `unsigned long`
(truncation toward zero). -/
def u32ofRat (q : ℚ) : Nat :=
  (⌊q⌋).toNat

/-- The C++ conversion of a floating value to `int`: truncation toward
zero. -/
def truncToInt (q : ℚ) : Int :=
  if q < 0 then ⌈q⌉ else ⌊q⌋

/-- Global state of WaterArduino.cpp (its module-level variables, lines
27-56, plus the two actuator output pins). -/
structure WState where
  currentMode : Int
  pulsesPerLiter : ℚ
  coin1P_pulses : Int
  coin5P_pulses : Int
  coin10P_pulses : Int
  flowPulseCount : Nat
  dispensing : Bool
  creditML : Int
  targetPulses : Nat
  startFlowCount : Nat
  lastActivity : Nat
  cupRemovedTime : Nat
  cupRemovedFlag : Bool
  lastCupDetected : Bool
  cupConsecutiveReadings : Nat
  pumpPin : Bool
  valvePin : Bool
  lastProgress : Nat
  deriving Repr, DecidableEq

/-- WATER_MODE constant (value 1). -/
def WATER_MODE : Int := 1

/-- CHARGE_MODE constant (value 2). -/
def CHARGE_MODE : Int := 2

/-- Helper `pulsesToML` (WaterArduino.cpp line 122):
`(pulses / pulsesPerLiter) * 1000.0`. -/
def pulsesToML (st : WState) (pulses : Nat) : ℚ :=
  ((pulses : ℚ) / st.pulsesPerLiter) * 1000

/-- Operation `startDispense(ml)` (WaterArduino.cpp lines 219-231).  The
target is `(unsigned long)((ml / 1000.0) * pulsesPerLiter)`, a
truncating cast. -/
def startDispense (now : Nat) (ml : Int) (st : WState) : WState × List Event :=
  ({ st with
      startFlowCount := st.flowPulseCount
      targetPulses := u32ofRat (((ml : ℚ) / 1000) * st.pulsesPerLiter)
      pumpPin := true
      valvePin := true
      dispensing := true
      cupRemovedFlag := false
      lastActivity := now },
   [Event.dispenseStart, Event.dispenseTarget ml])

/-- Operation `stopDispense()` (WaterArduino.cpp lines 263-277): normal
completion, credit zeroed. -/
def stopDispense (now : Nat) (st : WState) : WState × List Event :=
  let dispensedML := pulsesToML st (u32sub st.flowPulseCount st.startFlowCount)
  ({ st with
      pumpPin := false
      valvePin := false
      dispensing := false
      cupRemovedFlag := false
      creditML := 0
      lastActivity := now },
   [Event.dispenseDone dispensedML])

/-- Operation `stopDispenseEarly()` (WaterArduino.cpp lines 279-297):
early stop with refund.  `remaining` is a float clamped at 0; the store
`creditML = remaining` is a truncating float-to-int conversion. -/
def stopDispenseEarly (now : Nat) (st : WState) : WState × List Event :=
  let dispensedML := pulsesToML st (u32sub st.flowPulseCount st.startFlowCount)
  let remaining0 := (st.creditML : ℚ) - dispensedML
  let remaining := if remaining0 < 0 then 0 else remaining0
  ({ st with
      pumpPin := false
      valvePin := false
      dispensing := false
      cupRemovedFlag := false
      creditML := truncToInt remaining
      lastActivity := now },
   [Event.creditLeft remaining])

/-- Operation `resetSystem()` (WaterArduino.cpp lines 422-432). -/
def resetSystem (now : Nat) (st : WState) : WState × List Event :=
  ({ st with
      creditML := 0
      dispensing := false
      cupRemovedFlag := false
      lastCupDetected := false
      cupConsecutiveReadings := 0
      pumpPin := false
      valvePin := false
      lastActivity := now },
   [Event.systemReset])

/-- Operation `detectCup()` (WaterArduino.cpp lines 127-171), given the
measured echo `duration` in microseconds.  A zero duration (timeout)
returns false without touching the consecutive-readings counter; the
counter is incremented when the raw sample agrees with the public
`lastCupDetected` value and reset otherwise, and the reliable result
needs 3 consecutive agreeing readings plus a raw-present sample. -/
def detectCup (duration : Nat) (st : WState) : Bool × WState :=
  if duration = 0 then
    (false, st)
  else
    let distance : ℚ := (duration : ℚ) * (34 / 1000) / 2
    let currentCupState : Bool := if 0 < distance ∧ distance < 10 then true else false
    let readings : Nat :=
      if currentCupState = st.lastCupDetected then st.cupConsecutiveReadings + 1 else 0
    let reliable : Bool := (if 3 ≤ readings then true else false) && currentCupState
    (reliable, { st with cupConsecutiveReadings := readings })

/-- Operation `handleCup()` (WaterArduino.cpp lines 173-216), given the
echo duration of this tick's ultrasonic sample. -/
def handleCup (now : Nat) (duration : Nat) (st : WState) : WState × List Event :=
  let sample := detectCup duration st
  let cupDetected := sample.1
  let st0 := sample.2
  if cupDetected && !st0.lastCupDetected then
    let st1 := { st0 with lastCupDetected := true, cupRemovedFlag := false }
    if st1.creditML > 0 && !st1.dispensing then
      let d := startDispense now st1.creditML st1
      (d.1, Event.cupDetected :: Event.autoStart :: d.2)
    else
      (st1, [Event.cupDetected])
  else if !cupDetected && st0.lastCupDetected then
    if !st0.cupRemovedFlag then
      ({ st0 with
          cupRemovedFlag := true
          cupRemovedTime := now
          lastCupDetected := false },
       [Event.cupRemovedGrace])
    else if u32sub now st0.cupRemovedTime > 3000 then
      let d := stopDispenseEarly now st0
      ({ d.1 with cupRemovedFlag := false, lastCupDetected := false },
       Event.cupRemovedStop :: d.2)
    else
      ({ st0 with lastCupDetected := false }, [])
  else if cupDetected && st0.dispensing && st0.cupRemovedFlag then
    ({ st0 with cupRemovedFlag := false }, [Event.cupReplaced])
  else if !cupDetected && !st0.dispensing && st0.cupRemovedFlag then
    ({ st0 with cupRemovedFlag := false }, [])
  else
    (st0, [])

/-- Operation `handleDispensing()` (WaterArduino.cpp lines 233-261); the
throttled progress print is not modelled as an event. -/
def handleDispensing (now : Nat) (st : WState) : WState × List Event :=
  if !st.dispensing then
    (st, [])
  else if st.currentMode = WATER_MODE ∧ st.cupRemovedFlag = true ∧
      u32sub now st.cupRemovedTime > 3000 then
    stopDispenseEarly now st
  else
    let dispensedPulses := u32sub st.flowPulseCount st.startFlowCount
    if dispensedPulses ≥ st.targetPulses then
      stopDispense now st
    else
      (st, [])

/-- Per-iteration sensor/host inputs to the control loop.  `calCoin*`
and `calFlowPulses` are the pulse counts observed during the blocking
calibration procedures, should one be commanded this iteration. -/
structure LoopInput where
  now : Nat
  cmd : Option Cmd
  echoDuration : Nat
  newFlowPulses : Nat
  calCoin1 : Int
  calCoin5 : Int
  calCoin10 : Int
  calFlowPulses : Nat
  deriving Repr, DecidableEq

/-- Blocking procedure `calibrateCoins()` (WaterArduino.cpp lines
364-388): records the three observed pulse counts as the coin
signatures (EEPROM writes not modelled). -/
def calibrateCoins (inp : LoopInput) (st : WState) : WState × List Event :=
  ({ st with
      coin1P_pulses := inp.calCoin1
      coin5P_pulses := inp.calCoin5
      coin10P_pulses := inp.calCoin10 },
   [Event.calDone inp.calCoin1 inp.calCoin5 inp.calCoin10])

/-- Blocking procedure `calibrateFlow()` (WaterArduino.cpp lines
398-419): net effect after the blocking collection — the flow counter
holds the pulses collected, both actuator pins end LOW, and
`pulsesPerLiter` becomes the collected count.  `dispensing` is not
touched. -/
def calibrateFlow (inp : LoopInput) (st : WState) : WState × List Event :=
  ({ st with
      flowPulseCount := inp.calFlowPulses
      pumpPin := false
      valvePin := false
      pulsesPerLiter := (inp.calFlowPulses : ℚ) },
   [Event.flowCalSaved (inp.calFlowPulses : ℚ)])

/-- Operation `handleSerialCommand()` (WaterArduino.cpp lines 305-361). -/
def handleSerialCommand (inp : LoopInput) (st : WState) : WState × List Event :=
  match inp.cmd with
  | none => (st, [])
  | some Cmd.cal => calibrateCoins inp st
  | some Cmd.flowcal => calibrateFlow inp st
  | some Cmd.reset => resetSystem inp.now st
  | some Cmd.modeWaterCmd =>
      ({ st with currentMode := WATER_MODE }, [Event.modeWater])
  | some Cmd.modeChargeCmd =>
      ({ st with currentMode := CHARGE_MODE }, [Event.modeCharge])
  | some Cmd.start =>
      if st.currentMode = WATER_MODE ∧ st.creditML > 0 ∧ st.dispensing = false then
        let d := startDispense inp.now st.creditML st
        (d.1, d.2 ++ [Event.manualStart])
      else
        (st, [Event.errorCannotStart])
  | some Cmd.stop =>
      if st.dispensing then
        let d := stopDispenseEarly inp.now st
        (d.1, d.2 ++ [Event.manualStop])
      else
        (st, [])
  | some Cmd.add100 =>
      if st.currentMode = WATER_MODE then
        ({ st with creditML := st.creditML + 100 },
         [Event.addedCredit (st.creditML + 100)])
      else
        (st, [])
  | some Cmd.add500 =>
      if st.currentMode = WATER_MODE then
        ({ st with creditML := st.creditML + 500 },
         [Event.addedCredit (st.creditML + 500)])
      else
        (st, [])
  | some Cmd.status => (st, [Event.statusReport])
  | some Cmd.other => (st, [])

/-- The inactivity failsafe at the end of `loop()` (WaterArduino.cpp
lines 114-116): `if (millis() - lastActivity > INACTIVITY_TIMEOUT &&
!dispensing) resetSystem();`. -/
def inactivityCheck (now : Nat) (st : WState) : WState × List Event :=
  if u32sub now st.lastActivity > 300000 ∧ st.dispensing = false then
    resetSystem now st
  else
    (st, [])

/-- One iteration of `loop()` (WaterArduino.cpp lines 104-119).  The
asynchronous flow-sensor interrupts since the previous iteration are
applied first; cup handling runs only in WATER mode. -/
def loopStep (inp : LoopInput) (st : WState) : WState × List Event :=
  let stf := { st with flowPulseCount := st.flowPulseCount + inp.newFlowPulses }
  let r1 := handleSerialCommand inp stf
  let r2 :=
    if r1.1.currentMode = WATER_MODE then
      handleCup inp.now inp.echoDuration r1.1
    else
      (r1.1, [])
  let r3 := handleDispensing inp.now r2.1
  let r4 := inactivityCheck inp.now r3.1
  (r4.1, r1.2 ++ r2.2 ++ r3.2 ++ r4.2)

/-- Calibration load-and-clamp in `setup()` (WaterArduino.cpp lines
87-90): the stored float is modelled as `Option ℚ`, with `none` for a
stored NaN; out-of-range or NaN values are replaced by the default
450.0. -/
def loadPulsesPerLiter (stored : Option ℚ) : ℚ :=
  match stored with
  | none => 450
  | some q => if q < 200 ∨ q > 1000 then 450 else q

/-- State at the end of `setup()` (WaterArduino.cpp lines 68-101), given
the EEPROM contents and the boot time. -/
def setupState (eCoin1 eCoin5 eCoin10 : Int) (ePPL : Option ℚ) (now : Nat) : WState :=
  { currentMode := WATER_MODE
    pulsesPerLiter := loadPulsesPerLiter ePPL
    coin1P_pulses := eCoin1
    coin5P_pulses := eCoin5
    coin10P_pulses := eCoin10
    flowPulseCount := 0
    dispensing := false
    creditML := 0
    targetPulses := 0
    startFlowCount := 0
    lastActivity := now
    cupRemovedTime := 0
    cupRemovedFlag := false
    lastCupDetected := false
    cupConsecutiveReadings := 0
    pumpPin := false
    valvePin := false
    lastProgress := 0 }

/-- Global state of the coin subsystem of arduinocode.cpp (the variables
read or written by its `handleCoin`, lines 387-431). -/
structure CoinState where
  currentMode : Int
  coin1P_pulses : Int
  coin5P_pulses : Int
  coin10P_pulses : Int
  coinPulseCount : Int
  lastCoinPulseTime : Nat
  creditML : Int
  lastActivity : Nat
  deriving Repr, DecidableEq

/-- The three supported coin denominations. -/
inductive Denom where
  | one
  | five
  | ten
  deriving Repr, DecidableEq

/-- Configured pulse signature of a denomination (the `coinXP_pulses`
globals of arduinocode.cpp). -/
def Denom.sig (st : CoinState) : Denom → Int
  | Denom.one => st.coin1P_pulses
  | Denom.five => st.coin5P_pulses
  | Denom.ten => st.coin10P_pulses

/-- Peso value reported for a denomination (arduinocode.cpp lines
397-405). -/
def Denom.peso : Denom → Int
  | Denom.one => 1
  | Denom.five => 5
  | Denom.ten => 10

/-- Milliliter credit granted for a denomination (arduinocode.cpp lines
397-405; numerically equal to the `creditML_XP` globals). -/
def Denom.ml : Denom → Int
  | Denom.one => 50
  | Denom.five => 250
  | Denom.ten => 500

/-- Tolerance window test `pulses >= sig-1 && pulses <= sig+1` of
arduinocode.cpp lines 397-405. -/
def inWindow (st : CoinState) (d : Denom) (pulses : Int) : Prop :=
  Denom.sig st d - 1 ≤ pulses ∧ pulses ≤ Denom.sig st d + 1

instance (st : CoinState) (d : Denom) (pulses : Int) :
    Decidable (inWindow st d pulses) := by
  unfold inWindow
  infer_instance

/-- Acceptance bookkeeping shared by the three valid-coin branches of
`handleCoin` (arduinocode.cpp lines 408-423). -/
def acceptCoin (now : Nat) (d : Denom) (st : CoinState) : CoinState × List Event :=
  let st1 := { st with coinPulseCount := 0 }
  if st1.currentMode = WATER_MODE then
    ({ st1 with creditML := st1.creditML + Denom.ml d, lastActivity := now },
     [Event.coinInserted (Denom.peso d), Event.coinWater (Denom.ml d)])
  else if st1.currentMode = CHARGE_MODE then
    ({ st1 with lastActivity := now },
     [Event.coinInserted (Denom.peso d), Event.coinCharge (Denom.peso d)])
  else
    ({ st1 with lastActivity := now }, [Event.coinInserted (Denom.peso d)])

/-- Operation `handleCoin()` of arduinocode.cpp (lines 387-431): after a
quiet period of more than 800 ms, classify the accumulated burst by
first match against the three ±1 tolerance windows, in the order 1P,
5P, 10P; unmatched bursts are rejected with the counter reset and no
credit change. -/
def handleCoin (now : Nat) (st : CoinState) : CoinState × List Event :=
  if st.coinPulseCount > 0 ∧ u32sub now st.lastCoinPulseTime > 800 then
    let pulses := st.coinPulseCount
    if inWindow st Denom.one pulses then
      acceptCoin now Denom.one st
    else if inWindow st Denom.five pulses then
      acceptCoin now Denom.five st
    else if inWindow st Denom.ten pulses then
      acceptCoin now Denom.ten st
    else
      ({ st with coinPulseCount := 0 }, [Event.coinRejected pulses])
  else
    (st, [])

/-- Clamping by an `if` against zero is the max with zero. -/
lemma if_neg_clamp (x : ℚ) : (if x < 0 then 0 else x) = max 0 x := by
  rcases lt_or_le x 0 with h | h
  · simp [h, max_eq_left h.le]
  · simp [not_lt.mpr h, max_eq_right h]

/-- Sample state used to instantiate witnesses: the post-boot state with
default calibration (signatures 1/3/5, 450 pulses per liter). -/
def bootState : WState :=
  setupState 1 3 5 (some 450) 0

/-- C3 counterexample input: an idle (not dispensing) state holding
50 mL of credit, with the flow baseline equal to the current counter. -/
def idleState : WState :=
  { bootState with creditML := 50 }

/-- C7: at startup the loaded `pulses_per_liter` equals the stored value
whenever that value lies in [200, 1000], equals the default 450.0 when
the stored value is NaN (modelled `none`), below 200 or above 1000, and
in every case the post-load value lies in [200, 1000]. -/
theorem startup_ppl_clamp (e1 e5 e10 : Int) (v : Option ℚ) (now : Nat) :
    (∀ q : ℚ, v = some q → 200 ≤ q ∧ q ≤ 1000 →
      (setupState e1 e5 e10 v now).pulsesPerLiter = q) ∧
    (v = none → (setupState e1 e5 e10 v now).pulsesPerLiter = 450) ∧
    (∀ q : ℚ, v = some q → (q < 200 ∨ 1000 < q) →
      (setupState e1 e5 e10 v now).pulsesPerLiter = 450) ∧
    200 ≤ (setupState e1 e5 e10 v now).pulsesPerLiter ∧
    (setupState e1 e5 e10 v now).pulsesPerLiter ≤ 1000 := by
  refine ⟨?_, ?_, ?_, ?_⟩
  · rintro q rfl ⟨h1, h2⟩
    simp [setupState, loadPulsesPerLiter, not_lt.mpr h1, not_lt.mpr h2]
  · rintro rfl
    simp [setupState, loadPulsesPerLiter]
  · rintro q rfl h
    have : q < 200 ∨ q > 1000 := h
    simp [setupState, loadPulsesPerLiter, this]
  · rcases v with _ | q
    · norm_num [setupState, loadPulsesPerLiter]
    · by_cases h : q < 200 ∨ q > 1000
      · norm_num [setupState, loadPulsesPerLiter, h]
      · push_neg at h
        have hni : ¬ (q < 200 ∨ q > 1000) := by
          push_neg
          exact h
        simp only [setupState, loadPulsesPerLiter, if_neg hni]
        exact ⟨h.1, h.2⟩

/-- C7 witness: a stored in-range value 300 is kept. -/
theorem startup_ppl_clamp_witness :
    (setupState 1 3 5 (some 300) 0).pulsesPerLiter = 300 :=
  (startup_ppl_clamp 1 3 5 (some 300) 0).1 300 rfl ⟨by norm_num, by norm_num⟩

/-- C8: the loop's inactivity failsafe performs the full reset (credit
zeroed, pump and valve driven low, removal/detection flags and the
readings counter cleared) precisely when more than 300000 ms have
elapsed since the last activity and the system is not dispensing; in
particular it never fires while dispensing. -/
theorem inactivity_failsafe (now : Nat) (st : WState) :
    (u32sub now st.lastActivity > 300000 ∧ st.dispensing = false →
      (inactivityCheck now st).1.creditML = 0 ∧
      (inactivityCheck now st).1.pumpPin = false ∧
      (inactivityCheck now st).1.valvePin = false ∧
      (inactivityCheck now st).1.dispensing = false ∧
      (inactivityCheck now st).1.cupRemovedFlag = false ∧
      (inactivityCheck now st).1.lastCupDetected = false ∧
      (inactivityCheck now st).1.cupConsecutiveReadings = 0 ∧
      (inactivityCheck now st).2 = [Event.systemReset]) ∧
    (st.dispensing = true → inactivityCheck now st = (st, [])) ∧
    (u32sub now st.lastActivity ≤ 300000 → inactivityCheck now st = (st, [])) := by
  refine ⟨?_, ?_, ?_⟩
  · intro h
    simp [inactivityCheck, h.1, h.2, resetSystem]
  · intro h
    simp [inactivityCheck, h]
  · intro h
    simp [inactivityCheck, not_lt.mpr h]

/-- C8 witness: with last activity at 0 and the clock at 300001 ms, an
idle system is fully reset; a dispensing one is untouched. -/
theorem inactivity_failsafe_witness :
    (inactivityCheck 300001 idleState).1.creditML = 0 ∧
    (inactivityCheck 300001 idleState).2 = [Event.systemReset] := by
  have h := (inactivity_failsafe 300001 idleState).1
    ⟨by norm_num [u32sub, idleState, bootState, setupState], by norm_num [idleState, bootState, setupState]⟩
  exact ⟨h.1, h.2.2.2.2.2.2.2⟩

/-- C10: the ADD100 and ADD500 credit-injection commands are silently
ignored outside WATER mode (state and event stream untouched in CHARGE
mode), and in WATER mode they add exactly 100 resp. 500 mL of credit
and emit the ADDED_CREDIT event. -/
theorem addCredit_mode_gate (inp : LoopInput) (st : WState) :
    (st.currentMode = CHARGE_MODE →
      (inp.cmd = some Cmd.add100 → handleSerialCommand inp st = (st, [])) ∧
      (inp.cmd = some Cmd.add500 → handleSerialCommand inp st = (st, []))) ∧
    (st.currentMode = WATER_MODE →
      (inp.cmd = some Cmd.add100 → handleSerialCommand inp st =
        ({ st with creditML := st.creditML + 100 },
         [Event.addedCredit (st.creditML + 100)])) ∧
      (inp.cmd = some Cmd.add500 → handleSerialCommand inp st =
        ({ st with creditML := st.creditML + 500 },
         [Event.addedCredit (st.creditML + 500)]))) := by
  constructor
  · intro hm
    have hne : ¬ st.currentMode = WATER_MODE := by
      rw [hm]
      norm_num [WATER_MODE, CHARGE_MODE]
    exact ⟨fun hc => by simp [handleSerialCommand, hc, hne],
           fun hc => by simp [handleSerialCommand, hc, hne]⟩
  · intro hm
    exact ⟨fun hc => by simp [handleSerialCommand, hc, hm],
           fun hc => by simp [handleSerialCommand, hc, hm]⟩

/-- C10 witness: concrete ADD100 in CHARGE mode is ignored; in WATER
mode it adds 100 mL. -/
theorem addCredit_mode_gate_witness :
    handleSerialCommand
      { now := 0, cmd := some Cmd.add100, echoDuration := 0, newFlowPulses := 0,
        calCoin1 := 0, calCoin5 := 0, calCoin10 := 0, calFlowPulses := 0 }
      { idleState with currentMode := CHARGE_MODE } =
      ({ idleState with currentMode := CHARGE_MODE }, []) :=
  ((addCredit_mode_gate _ _).1 rfl).1 rfl

/-- C3 counterexample: calling `stopDispenseEarly` itself on an idle
state (50 mL credit, not dispensing, baseline equal to the counter) is
not a no-op — it emits a CREDIT_LEFT event and refreshes the activity
timestamp. -/
theorem stopEarly_idle_not_noop :
    (stopDispenseEarly 5 idleState).2 = [Event.creditLeft 50] ∧
    (stopDispenseEarly 5 idleState).1.lastActivity ≠ idleState.lastActivity := by
  constructor
  · norm_num [stopDispenseEarly, pulsesToML, u32sub, idleState, bootState, setupState,
      loadPulsesPerLiter]
  · norm_num [stopDispenseEarly, idleState, bootState, setupState]

/-- C3 amended: the early-stop guard lives at the command level — a STOP
command received while no dispense session is active leaves the whole
state unchanged and emits nothing, because `handleSerialCommand` only
calls `stopDispenseEarly` when `dispensing` is set. -/
theorem stop_cmd_idle_noop (inp : LoopInput) (st : WState)
    (hc : inp.cmd = some Cmd.stop) (hd : st.dispensing = false) :
    handleSerialCommand inp st = (st, []) := by
  simp [handleSerialCommand, hc, hd]

/-- C3 witness: a concrete STOP command on the idle state. -/
theorem stop_cmd_idle_noop_witness :
    handleSerialCommand
      { now := 7, cmd := some Cmd.stop, echoDuration := 0, newFlowPulses := 0,
        calCoin1 := 0, calCoin5 := 0, calCoin10 := 0, calFlowPulses := 0 }
      idleState = (idleState, []) :=
  stop_cmd_idle_noop _ _ rfl rfl

/-- Coin-subsystem state used for witnesses: default signatures 1/3/5,
WATER mode, no credit. -/
def coinBoot : CoinState :=
  { currentMode := WATER_MODE
    coin1P_pulses := 1
    coin5P_pulses := 3
    coin10P_pulses := 5
    coinPulseCount := 0
    lastCoinPulseTime := 0
    creditML := 0
    lastActivity := 0 }

/-- C5: a completed burst whose pulse count is within none of the three
±1 tolerance windows is rejected: credit (and every other field except
the burst counter) is unchanged, the burst counter is reset to zero,
and exactly one reject event is emitted. -/
theorem coin_reject_noop (now : Nat) (st : CoinState)
    (h1 : st.coinPulseCount > 0) (h2 : u32sub now st.lastCoinPulseTime > 800)
    (h3 : ∀ d : Denom, ¬ inWindow st d st.coinPulseCount) :
    handleCoin now st =
      ({ st with coinPulseCount := 0 }, [Event.coinRejected st.coinPulseCount]) := by
  have hone := h3 Denom.one
  have hfive := h3 Denom.five
  have hten := h3 Denom.ten
  simp [handleCoin, h1, h2, hone, hfive, hten]

/-- C5 witness: a 100-pulse burst matches no window and is rejected with
the counter cleared and credit untouched. -/
theorem coin_reject_noop_witness :
    handleCoin 1000 { coinBoot with coinPulseCount := 100 } =
      ({ coinBoot with coinPulseCount := 0 }, [Event.coinRejected 100]) := by
  have h := coin_reject_noop 1000 { coinBoot with coinPulseCount := 100 }
    (by norm_num [coinBoot])
    (by norm_num [u32sub, coinBoot])
    (by intro d; cases d <;> decide)
  simpa using h

/-- Truncation toward zero agrees with the floor on nonnegative values. -/
lemma truncToInt_nonneg (q : ℚ) (h : 0 ≤ q) : truncToInt q = ⌊q⌋ := by
  simp [truncToInt, not_lt.mpr h]

/-- C1/C2 counterexample state: an active session with 100 mL of credit,
calibration 450 pulses per liter, and exactly one flow pulse since the
session baseline. -/
def earlyStopCex : WState :=
  { bootState with
      dispensing := true
      creditML := 100
      flowPulseCount := 1
      pumpPin := true
      valvePin := true }

/-- C1 counterexample: on early stop the stored credit is the truncated
remainder, not `max(0, credit_before - dispensed_ml)` itself — here the
remainder is 100 - 1000/450 = 880/9 mL but the stored credit is 97. -/
theorem stopEarly_credit_truncation_cex :
    ¬ (((stopDispenseEarly 9 earlyStopCex).1.creditML : ℚ) =
        max 0 ((earlyStopCex.creditML : ℚ) -
          pulsesToML earlyStopCex
            (u32sub earlyStopCex.flowPulseCount earlyStopCex.startFlowCount))) := by
  have h1 : (stopDispenseEarly 9 earlyStopCex).1.creditML = 97 := by
    norm_num [stopDispenseEarly, truncToInt, pulsesToML, u32sub, earlyStopCex, bootState,
      setupState, loadPulsesPerLiter]
  have h2 : (earlyStopCex.creditML : ℚ) -
      pulsesToML earlyStopCex
        (u32sub earlyStopCex.flowPulseCount earlyStopCex.startFlowCount) = 880 / 9 := by
    norm_num [pulsesToML, u32sub, earlyStopCex, bootState, setupState, loadPulsesPerLiter]
  intro h
  rw [h1, h2, max_eq_right (by norm_num : (0:ℚ) ≤ 880 / 9)] at h
  norm_num at h

/-- C1 amended: early stop emits one CREDIT_LEFT event carrying the
clamped remainder `max(0, credit_before - dispensed_ml)`, stores the
floor of that remainder as the new credit (the float-to-int assignment
truncates), conserves volume exactly at the event level — dispensed
plus emitted remainder equals the credit at stop whenever the dispensed
volume does not exceed it, the remainder being 0 otherwise — and leaves
the session closed with both actuators off and nonnegative credit. -/
theorem stopEarly_refund (now : Nat) (st : WState) (_hd : st.dispensing = true) :
    (stopDispenseEarly now st).2 =
      [Event.creditLeft (max 0 ((st.creditML : ℚ) -
        pulsesToML st (u32sub st.flowPulseCount st.startFlowCount)))] ∧
    (stopDispenseEarly now st).1.creditML =
      ⌊max 0 ((st.creditML : ℚ) -
        pulsesToML st (u32sub st.flowPulseCount st.startFlowCount))⌋ ∧
    (pulsesToML st (u32sub st.flowPulseCount st.startFlowCount) ≤ (st.creditML : ℚ) →
      pulsesToML st (u32sub st.flowPulseCount st.startFlowCount) +
        max 0 ((st.creditML : ℚ) -
          pulsesToML st (u32sub st.flowPulseCount st.startFlowCount)) =
        (st.creditML : ℚ)) ∧
    ((st.creditML : ℚ) < pulsesToML st (u32sub st.flowPulseCount st.startFlowCount) →
      max 0 ((st.creditML : ℚ) -
        pulsesToML st (u32sub st.flowPulseCount st.startFlowCount)) = 0) ∧
    0 ≤ (stopDispenseEarly now st).1.creditML ∧
    (stopDispenseEarly now st).1.dispensing = false ∧
    (stopDispenseEarly now st).1.pumpPin = false ∧
    (stopDispenseEarly now st).1.valvePin = false := by
  have hclamp := if_neg_clamp ((st.creditML : ℚ) -
    pulsesToML st (u32sub st.flowPulseCount st.startFlowCount))
  have hnn : 0 ≤ max 0 ((st.creditML : ℚ) -
      pulsesToML st (u32sub st.flowPulseCount st.startFlowCount)) := le_max_left _ _
  refine ⟨?_, ?_, ?_, ?_, ?_, ?_, ?_, ?_⟩
  · simp only [stopDispenseEarly]
    rw [hclamp]
  · simp only [stopDispenseEarly]
    rw [hclamp, truncToInt_nonneg _ hnn]
  · intro h
    rw [max_eq_right (by linarith)]
    ring
  · intro h
    exact max_eq_left (by linarith)
  · simp only [stopDispenseEarly]
    rw [hclamp, truncToInt_nonneg _ hnn]
    exact Int.floor_nonneg.mpr hnn
  · simp [stopDispenseEarly]
  · simp [stopDispenseEarly]
  · simp [stopDispenseEarly]

/-- C1 witness: the amended statement applied to the concrete session
state of the counterexample. -/
theorem stopEarly_refund_witness :
    (stopDispenseEarly 9 earlyStopCex).1.dispensing = false ∧
    (stopDispenseEarly 9 earlyStopCex).2 =
      [Event.creditLeft (max 0 ((earlyStopCex.creditML : ℚ) -
        pulsesToML earlyStopCex
          (u32sub earlyStopCex.flowPulseCount earlyStopCex.startFlowCount)))] :=
  ⟨(stopEarly_refund 9 earlyStopCex rfl).2.2.2.2.2.1,
   (stopEarly_refund 9 earlyStopCex rfl).1⟩

/-- C2 counterexample: with 450 pulses per liter and a 110 mL target the
stored target pulse count is 49 (truncation of 49.5), not the nearest
integer 50 demanded by the claim. -/
theorem startDispense_round_cex :
    ((startDispense 0 110 bootState).1.targetPulses : ℤ) ≠
      round (((110 : ℚ) / 1000) * bootState.pulsesPerLiter) := by
  have h1 : (startDispense 0 110 bootState).1.targetPulses = 49 := by
    norm_num [startDispense, u32ofRat, bootState, setupState, loadPulsesPerLiter]
    decide
  have h2 : round (((110 : ℚ) / 1000) * bootState.pulsesPerLiter) = 50 := by
    rw [round_eq]
    norm_num [bootState, setupState, loadPulsesPerLiter]
  rw [h1, h2]
  norm_num

/-- C2 amended: for nonnegative target volume and calibration, the
stored target pulse count is the integer truncation of
`target_ml / 1000 * pulses_per_liter` — the greatest integer that does
not exceed the product (truncating cast, not nearest-integer
rounding). -/
theorem startDispense_target_floor (now : Nat) (ml : Int) (st : WState)
    (hml : 0 ≤ ml) (hppl : 0 ≤ st.pulsesPerLiter) :
    (((startDispense now ml st).1.targetPulses : ℚ) ≤
        ((ml : ℚ) / 1000) * st.pulsesPerLiter) ∧
    (((ml : ℚ) / 1000) * st.pulsesPerLiter <
        ((startDispense now ml st).1.targetPulses : ℚ) + 1) := by
  have hx : 0 ≤ ((ml : ℚ) / 1000) * st.pulsesPerLiter :=
    mul_nonneg (div_nonneg (by exact_mod_cast hml) (by norm_num)) hppl
  have hfl : (0 : ℤ) ≤ ⌊((ml : ℚ) / 1000) * st.pulsesPerLiter⌋ :=
    Int.floor_nonneg.mpr hx
  have htp : (startDispense now ml st).1.targetPulses =
      (⌊((ml : ℚ) / 1000) * st.pulsesPerLiter⌋).toNat := by
    simp [startDispense, u32ofRat]
  have hc : (((startDispense now ml st).1.targetPulses : ℚ)) =
      ((⌊((ml : ℚ) / 1000) * st.pulsesPerLiter⌋ : ℤ) : ℚ) := by
    rw [htp]
    exact_mod_cast congrArg (fun z : ℤ => (z : ℚ)) (Int.toNat_of_nonneg hfl)
  constructor
  · rw [hc]
    exact Int.floor_le _
  · rw [hc]
    exact Int.lt_floor_add_one _

/-- C2 witness: the truncation bracketing applied at target 110 mL with
the default 450 pulses-per-liter calibration. -/
theorem startDispense_target_floor_witness :
    ((startDispense 0 110 bootState).1.targetPulses : ℚ) ≤
      ((110 : ℚ) / 1000) * bootState.pulsesPerLiter :=
  (startDispense_target_floor 0 110 bootState (by norm_num)
    (by norm_num [bootState, setupState, loadPulsesPerLiter])).1

/-- Position of a denomination in the classification order of
`handleCoin` (arduinocode.cpp checks 1P, then 5P, then 10P). -/
def denomIdx : Denom → Nat
  | Denom.one => 0
  | Denom.five => 1
  | Denom.ten => 2

/-- C4 counterexample: with the default signatures 1/3/5 the tolerance
windows overlap; a 2-pulse burst lies in the 5-peso window {2,3,4} yet
is classified as 1 peso (first match), so credit rises by 50 mL, not by
the 5-peso amount of 250 mL. -/
theorem coin_window_overlap_cex :
    inWindow { coinBoot with coinPulseCount := 2 } Denom.five 2 ∧
    handleCoin 1000 { coinBoot with coinPulseCount := 2 } =
      ({ coinBoot with coinPulseCount := 0, creditML := 50, lastActivity := 1000 },
       [Event.coinInserted 1, Event.coinWater 50]) ∧
    (handleCoin 1000 { coinBoot with coinPulseCount := 2 }).1.creditML ≠
      coinBoot.creditML + Denom.ml Denom.five := by
  refine ⟨by decide, ?_, by decide⟩
  simp only [handleCoin, acceptCoin]
  norm_num [inWindow, Denom.sig, Denom.peso, Denom.ml, u32sub, coinBoot, WATER_MODE]

/-- C4 amended: a completed burst is classified by first match in the
order 1P, 5P, 10P.  Whenever the burst count lies in denomination `d`'s
±1 window and in the window of no earlier-checked denomination, it is
classified as `d`; in WATER mode the credit then rises by exactly `d`'s
milliliter amount, a COIN_INSERTED and a COIN_WATER event are each
emitted exactly once, the burst counter resets to zero and the activity
timestamp is refreshed. -/
theorem coin_accept_first_match (now : Nat) (st : CoinState) (d : Denom)
    (hq1 : st.coinPulseCount > 0) (hq2 : u32sub now st.lastCoinPulseTime > 800)
    (hw : inWindow st d st.coinPulseCount)
    (hearlier : ∀ e : Denom, denomIdx e < denomIdx d → ¬ inWindow st e st.coinPulseCount)
    (hm : st.currentMode = WATER_MODE) :
    handleCoin now st =
      ({ st with
          coinPulseCount := 0
          creditML := st.creditML + Denom.ml d
          lastActivity := now },
       [Event.coinInserted (Denom.peso d), Event.coinWater (Denom.ml d)]) := by
  cases d with
  | one =>
      simp [handleCoin, acceptCoin, hq1, hq2, hw, hm]
  | five =>
      have h1 := hearlier Denom.one (by norm_num [denomIdx])
      simp [handleCoin, acceptCoin, hq1, hq2, hw, h1, hm]
  | ten =>
      have h1 := hearlier Denom.one (by norm_num [denomIdx])
      have h5 := hearlier Denom.five (by norm_num [denomIdx])
      simp [handleCoin, acceptCoin, hq1, hq2, hw, h1, h5, hm]

/-- Coin state with pairwise disjoint windows (signatures 1/5/9) and a
pending 6-pulse burst, used to instantiate the C4 witness. -/
def disjointCoin : CoinState :=
  { coinBoot with coin5P_pulses := 5, coin10P_pulses := 9, coinPulseCount := 6 }

/-- C4 witness: with disjoint signatures 1/5/9 a 6-pulse burst is
classified as 5 pesos and credits 250 mL. -/
theorem coin_accept_first_match_witness :
    handleCoin 1000 disjointCoin =
      ({ disjointCoin with
          coinPulseCount := 0
          creditML := disjointCoin.creditML + Denom.ml Denom.five
          lastActivity := 1000 },
       [Event.coinInserted (Denom.peso Denom.five), Event.coinWater (Denom.ml Denom.five)]) :=
  coin_accept_first_match 1000 disjointCoin Denom.five (by decide)
    (by norm_num [u32sub, disjointCoin, coinBoot]) (by decide)
    (by
      intro e hlt
      cases e with
      | one => decide
      | five => norm_num [denomIdx] at hlt
      | ten => norm_num [denomIdx] at hlt)
    rfl

/-- C9 invariant: both actuator output pins are driven exactly when the
`dispensing` flag is set. -/
def actuatorInv (st : WState) : Prop :=
  st.pumpPin = st.dispensing ∧ st.valvePin = st.dispensing

/-- Sampling the cup sensor never touches the actuator pins or the
dispensing flag. -/
lemma inv_detectCup (duration : Nat) (st : WState) (h : actuatorInv st) :
    actuatorInv (detectCup duration st).2 := by
  by_cases hd : duration = 0
  · simp only [detectCup, if_pos hd]
    exact h
  · simp only [detectCup, if_neg hd]
    exact h

/-- The cup handler preserves the actuator invariant: its only pin
writes go through `startDispense` and `stopDispenseEarly`. -/
lemma inv_handleCup (now duration : Nat) (st : WState) (h : actuatorInv st) :
    actuatorInv (handleCup now duration st).1 := by
  have h0 := inv_detectCup duration st h
  simp only [handleCup]
  split
  · split
    · exact ⟨rfl, rfl⟩
    · exact h0
  · split
    · split
      · exact h0
      · split
        · exact ⟨rfl, rfl⟩
        · exact h0
    · split
      · exact h0
      · split
        · exact h0
        · exact h0

/-- The dispense tick preserves the actuator invariant. -/
lemma inv_handleDispensing (now : Nat) (st : WState) (h : actuatorInv st) :
    actuatorInv (handleDispensing now st).1 := by
  simp only [handleDispensing]
  split
  · exact h
  · split
    · exact ⟨rfl, rfl⟩
    · split
      · exact ⟨rfl, rfl⟩
      · exact h

/-- The command handler preserves the actuator invariant for every
command except the blocking calibration procedures. -/
lemma inv_handleSerialCommand (inp : LoopInput) (st : WState) (h : actuatorInv st)
    (hc1 : inp.cmd ≠ some Cmd.cal) (hc2 : inp.cmd ≠ some Cmd.flowcal) :
    actuatorInv (handleSerialCommand inp st).1 := by
  cases hcmd : inp.cmd with
  | none =>
      simp only [handleSerialCommand, hcmd]
      exact h
  | some c =>
      cases c with
      | cal => exact absurd hcmd hc1
      | flowcal => exact absurd hcmd hc2
      | reset =>
          simp only [handleSerialCommand, hcmd]
          exact ⟨rfl, rfl⟩
      | modeWaterCmd =>
          simp only [handleSerialCommand, hcmd]
          exact h
      | modeChargeCmd =>
          simp only [handleSerialCommand, hcmd]
          exact h
      | start =>
          simp only [handleSerialCommand, hcmd]
          split
          · exact ⟨rfl, rfl⟩
          · exact h
      | stop =>
          simp only [handleSerialCommand, hcmd]
          split
          · exact ⟨rfl, rfl⟩
          · exact h
      | add100 =>
          simp only [handleSerialCommand, hcmd]
          split
          · exact h
          · exact h
      | add500 =>
          simp only [handleSerialCommand, hcmd]
          split
          · exact h
          · exact h
      | status =>
          simp only [handleSerialCommand, hcmd]
          exact h
      | other =>
          simp only [handleSerialCommand, hcmd]
          exact h

/-- The inactivity failsafe preserves the actuator invariant. -/
lemma inv_inactivityCheck (now : Nat) (st : WState) (h : actuatorInv st) :
    actuatorInv (inactivityCheck now st).1 := by
  simp only [inactivityCheck]
  split
  · exact ⟨rfl, rfl⟩
  · exact h

/-- C9: the pump and valve pins are HIGH exactly when `dispensing` is
true — established by `setup()` and preserved by every full control-loop
iteration whose command is not one of the blocking calibration
procedures (every path clearing `dispensing` also drives both pins LOW,
and the only path driving them HIGH sets `dispensing`). -/
theorem actuator_pins_track_dispensing (e1 e5 e10 : Int) (v : Option ℚ)
    (boot : Nat) (inp : LoopInput) (st : WState) :
    actuatorInv (setupState e1 e5 e10 v boot) ∧
    (actuatorInv st → inp.cmd ≠ some Cmd.cal → inp.cmd ≠ some Cmd.flowcal →
      actuatorInv (loopStep inp st).1) := by
  constructor
  · exact ⟨rfl, rfl⟩
  · intro h h1 h2
    have r1 := inv_handleSerialCommand inp
      { st with flowPulseCount := st.flowPulseCount + inp.newFlowPulses } h h1 h2
    simp only [loopStep]
    apply inv_inactivityCheck
    apply inv_handleDispensing
    split
    · exact inv_handleCup _ _ _ r1
    · exact r1

/-- C9 witness: one concrete loop iteration (STATUS command, one flow
pulse, cup absent) starting from the idle state keeps the invariant. -/
theorem actuator_pins_track_dispensing_witness :
    actuatorInv (loopStep
      { now := 60, cmd := some Cmd.status, echoDuration := 0, newFlowPulses := 1,
        calCoin1 := 0, calCoin5 := 0, calCoin10 := 0, calFlowPulses := 0 }
      idleState).1 :=
  (actuator_pins_track_dispensing 1 3 5 (some 450) 0
    { now := 60, cmd := some Cmd.status, echoDuration := 0, newFlowPulses := 1,
      calCoin1 := 0, calCoin5 := 0, calCoin10 := 0, calFlowPulses := 0 }
    idleState).2 ⟨rfl, rfl⟩ (by decide) (by decide)

/-- Repeated cup sampling: fold `handleCup` over a list of echo
durations (one control-loop tick each, constant clock). -/
def feedCup (now : Nat) (durs : List Nat) (st : WState) : WState :=
  durs.foldl (fun s d => (handleCup now d s).1) st

/-- State with the stabilized presence value set (a cup accepted as
present) and a healthy run of consistent readings, used for the C6
presence-to-absence part. -/
def cupPresentState : WState :=
  { bootState with lastCupDetected := true, cupConsecutiveReadings := 5 }

/-- C6 divergence, both directions.  From the boot state (presence
false) five consecutive raw cup-present samples (echo 300 µs, distance
5.1 cm) never flip the stabilized value to present — the
consecutive-readings counter is compared against the already-stabilized
value, so it is reset by every present sample — and no dispense
auto-starts despite 250 mL of credit; conversely from a stabilized
present state a single raw absent sample (echo 1000 µs, distance 17 cm)
immediately flips the stabilized value to absent. -/
theorem cup_stabilization_divergence :
    (feedCup 0 [300, 300, 300, 300, 300]
      { bootState with creditML := 250 }).lastCupDetected = false ∧
    (feedCup 0 [300, 300, 300, 300, 300]
      { bootState with creditML := 250 }).dispensing = false ∧
    (handleCup 7 1000 cupPresentState).1.lastCupDetected = false := by
  refine ⟨?_, ?_, ?_⟩ <;>
    norm_num [feedCup, handleCup, detectCup, cupPresentState, bootState, setupState,
      loadPulsesPerLiter, startDispense, stopDispenseEarly, stopDispense, pulsesToML,
      u32sub, truncToInt]
